import Mathlib

/-!
Verification of the WordWhisperer G2P training/export script
(src/WordWhisperer.Core/Data/MLModels/train_export_g2p_model.py)
against its natural-language specification.

The script is shallowly embedded: the character tables of CharMapper,
the Python-dict symbol-to-index maps (a dict comprehension keeps the
LAST assignment for a repeated key), the dataset line parser and
tensorization of CMUDictDataset, the ARPABET-to-IPA converter, the
epoch loop of train_model, and the control flow of export_to_onnx.
-/

/-- Grapheme character list of CharMapper: the 26 lowercase letters
followed by apostrophe, hyphen and period (source line 39,
the string "abcdefghijklmnopqrstuvwxyz" plus three punctuation marks). -/
def graphemeChars : List Char :=
  "abcdefghijklmnopqrstuvwxyz".toList ++ [Char.ofNat 39, Char.ofNat 45, Char.ofNat 46]

/-- Input symbol table of CharMapper (source line 39):
pad and unk sentinels followed by the grapheme characters,
each as a one-character string, in order. -/
def chars : List String :=
  ["<pad>", "<unk>"] ++ graphemeChars.map fun c => String.mk [c]

/-- IPA character string of CharMapper (source line 43). Python list()
splits it into individual characters, so two-character diphthongs such
as the a-and-smallcap-i pair contribute their characters separately. -/
def ipaString : String := "əɑæɛɪioʊuʌɝɚɒaɪaʊɔɪˈˌbdfghdʒklmnŋprsʃttʃθðvwjzʒ"

/-- Output symbol table of CharMapper (source line 43):
pad and unk sentinels followed by the characters of ipaString, in order. -/
def ipa_chars : List String :=
  ["<pad>", "<unk>"] ++ ipaString.toList.map fun c => String.mk [c]

/-- Last-assignment index lookup: models the Python dict comprehension
of source lines 40 and 44. A dict built by iterating an enumerated list
keeps, for each key, the index of its LAST occurrence; k is the index
of the head of the remaining list. -/
def lastAssign (s : String) : List String → Nat → Option Nat
  | [], _ => none
  | c :: rest, k =>
    match lastAssign s rest (k + 1) with
    | some j => some j
    | none => if c = s then some k else none

/-- Symbol-to-index map char_to_idx of CharMapper (source line 40). -/
def char_to_idx (s : String) : Option Nat := lastAssign s chars 0

/-- Symbol-to-index map ipa_to_idx of CharMapper (source line 44). -/
def ipa_to_idx (s : String) : Option Nat := lastAssign s ipa_chars 0

/-- Python dict .get with a default: value of the last assignment of the
key, or the default when the key is absent. -/
def dictGet (tbl : List String) (s : String) (dflt : Nat) : Nat :=
  (lastAssign s tbl 0).getD dflt

/-- Claim C1, counterexample: the phoneme table is NOT an ordered
sequence of unique symbols with a bijective symbol-to-index mapping.
Python list() splits the IPA string into single characters, so the
diphthong and affricate spellings repeat characters: the small-capital-i
vowel occurs at indices 6, 16 and 20, hence symbol_at is not injective
and the table has duplicates. -/
theorem vocab_bijective_counterexample :
    ipa_chars[6]? = some "ɪ" ∧ ipa_chars[16]? = some "ɪ" ∧ ipa_chars[20]? = some "ɪ"
  ∧ ¬ ipa_chars.Nodup := by
  decide

/-- Claim C1, amended: for every symbol s of either table, index_of s
followed by symbol_at returns s (index_of resolves a repeated symbol to
its last occurrence, as a Python dict comprehension does, and maps any
absent symbol to 1); the grapheme table is duplicate-free, so its
symbol-to-index mapping is bijective, but the phoneme table contains
repeated characters and is only surjective onto its symbols. -/
theorem vocab_roundtrip :
    (∀ s ∈ chars, chars[dictGet chars s 1]? = some s)
  ∧ chars.Nodup
  ∧ (∀ s ∈ ipa_chars, ipa_chars[dictGet ipa_chars s 1]? = some s) := by
  decide

/-- Claim C1, witness: the round-trip theorem applied to the concrete
grapheme "a" and the concrete repeated phoneme character. -/
theorem vocab_roundtrip_witness :
    chars[dictGet chars "a" 1]? = some "a"
  ∧ ipa_chars[dictGet ipa_chars "ɪ" 1]? = some "ɪ" :=
  ⟨vocab_roundtrip.1 "a" (by decide), vocab_roundtrip.2.2 "ɪ" (by decide)⟩

/-- Claim C9: in both tables the symbol at index 0 is the pad symbol and
the symbol at index 1 is the unknown symbol; the tables are built by a
deterministic constructor, so this holds in every run. -/
theorem pad_unk_reserved :
    chars[0]? = some "<pad>" ∧ chars[1]? = some "<unk>"
  ∧ ipa_chars[0]? = some "<pad>" ∧ ipa_chars[1]? = some "<unk>" := by
  refine ⟨rfl, rfl, rfl, rfl⟩

/-- ARPABET-to-IPA lookup table of convert_arpabet_to_ipa (source lines
117-138). The 69 keys are pairwise distinct, so an association-list
lookup models the Python dict exactly. -/
def arpabet_to_ipa : List (String × String) :=
  [("AA0", "ɑ"), ("AA1", "ˈɑ"), ("AA2", "ˌɑ"),
   ("AE0", "æ"), ("AE1", "ˈæ"), ("AE2", "ˌæ"),
   ("AH0", "ə"), ("AH1", "ˈʌ"), ("AH2", "ˌʌ"),
   ("AO0", "ɔ"), ("AO1", "ˈɔ"), ("AO2", "ˌɔ"),
   ("AW0", "aʊ"), ("AW1", "ˈaʊ"), ("AW2", "ˌaʊ"),
   ("AY0", "aɪ"), ("AY1", "ˈaɪ"), ("AY2", "ˌaɪ"),
   ("B", "b"), ("CH", "tʃ"), ("D", "d"),
   ("DH", "ð"), ("EH0", "ɛ"), ("EH1", "ˈɛ"),
   ("EH2", "ˌɛ"), ("ER0", "ɚ"), ("ER1", "ˈɝ"),
   ("ER2", "ˌɝ"), ("EY0", "eɪ"), ("EY1", "ˈeɪ"),
   ("EY2", "ˌeɪ"), ("F", "f"), ("G", "g"),
   ("HH", "h"), ("IH0", "ɪ"), ("IH1", "ˈɪ"),
   ("IH2", "ˌɪ"), ("IY0", "i"), ("IY1", "ˈi"),
   ("IY2", "ˌi"), ("JH", "dʒ"), ("K", "k"),
   ("L", "l"), ("M", "m"), ("N", "n"),
   ("NG", "ŋ"), ("OW0", "oʊ"), ("OW1", "ˈoʊ"),
   ("OW2", "ˌoʊ"), ("OY0", "ɔɪ"), ("OY1", "ˈɔɪ"),
   ("OY2", "ˌɔɪ"), ("P", "p"), ("R", "r"),
   ("S", "s"), ("SH", "ʃ"), ("T", "t"),
   ("TH", "θ"), ("UH0", "ʊ"), ("UH1", "ˈʊ"),
   ("UH2", "ˌʊ"), ("UW0", "u"), ("UW1", "ˈu"),
   ("UW2", "ˌu"), ("V", "v"), ("W", "w"),
   ("Y", "j"), ("Z", "z"), ("ZH", "ʒ")]

/-- Python str.split() tokenizer: splits on runs of whitespace and drops
empty tokens (source line 141, arpabet.split()); acc accumulates the
current token in reverse. -/
def splitWsAux : List Char → List Char → List (List Char)
  | [], acc => if acc = [] then [] else [acc.reverse]
  | c :: rest, acc =>
    if c.isWhitespace then
      if acc = [] then splitWsAux rest [] else acc.reverse :: splitWsAux rest []
    else splitWsAux rest (c :: acc)

/-- Whitespace tokenization of a transcription, as Python split(). -/
def pyTokens (s : List Char) : List (List Char) := splitWsAux s []

/-- Loop body of convert_arpabet_to_ipa (source lines 140-146): known
phoneme codes append their IPA form, unknown codes only log a warning
and append nothing. -/
def convTokens : List (List Char) → List String
  | [] => []
  | t :: rest =>
    match arpabet_to_ipa.lookup (String.mk t) with
    | some s => s :: convTokens rest
    | none => convTokens rest

/-- convert_arpabet_to_ipa (source lines 114-147): tokenize the
transcription on whitespace and concatenate the IPA forms of the known
tokens in input order. -/
def convert_arpabet_to_ipa (arpabet : List Char) : String :=
  String.join (convTokens (pyTokens arpabet))

/-- Known tokens contribute their IPA form in input order,
unknown tokens contribute nothing. -/
theorem convTokens_eq_filterMap (l : List (List Char)) :
    convTokens l = l.filterMap fun t => arpabet_to_ipa.lookup (String.mk t) := by
  induction l with
  | nil => rfl
  | cons t rest ih =>
    unfold convTokens
    rcases h : arpabet_to_ipa.lookup (String.mk t) with _ | s <;>
      simp [List.filterMap_cons, h, ih]

/-- Removing the unknown tokens from the input does not change the
output: unknown codes are omitted entirely. -/
theorem convTokens_drop_unknown (l : List (List Char)) :
    convTokens (l.filter fun t => (arpabet_to_ipa.lookup (String.mk t)).isSome)
      = convTokens l := by
  induction l with
  | nil => rfl
  | cons t rest ih =>
    rcases h : arpabet_to_ipa.lookup (String.mk t) with _ | s <;>
      simp [List.filter_cons, h, convTokens, ih]

/-- Claim C7: the converter is a pure function of its input (hence
deterministic and never aborting: it is total), its output is the
concatenation in input order of the IPA forms of the known tokens, and
unknown phoneme codes are omitted entirely, with no placeholder: the
output equals the output on the input with unknown tokens removed. -/
theorem converter_omits_unknown (arpabet : List Char) :
    convert_arpabet_to_ipa arpabet
      = String.join ((pyTokens arpabet).filterMap fun t => arpabet_to_ipa.lookup (String.mk t))
  ∧ convert_arpabet_to_ipa arpabet
      = String.join (convTokens ((pyTokens arpabet).filter
          fun t => (arpabet_to_ipa.lookup (String.mk t)).isSome)) := by
  refine ⟨?_, ?_⟩
  · unfold convert_arpabet_to_ipa
    rw [convTokens_eq_filterMap]
  · unfold convert_arpabet_to_ipa
    rw [convTokens_drop_unknown]

/-- Python str.strip(): drop leading and trailing whitespace. -/
def pyStrip (l : List Char) : List Char :=
  ((l.dropWhile Char.isWhitespace).reverse.dropWhile Char.isWhitespace).reverse

/-- Python split(sep, 1) with a two-space separator (source line 75):
cut at the first occurrence of two adjacent spaces; none models the
one-field result (no separator present, len(parts) != 2). -/
def splitTwoSpace : List Char → Option (List Char × List Char)
  | ' ' :: ' ' :: rest => some ([], rest)
  | c :: rest => (splitTwoSpace rest).map fun p => (c :: p.1, p.2)
  | [] => none

/-- Per-line body of the CMUDictDataset loading loop (source lines
71-89): skip comment lines, blank lines, lines without the double-space
separator and parenthesized variant words; otherwise produce the
(lowercased word, IPA) entry. -/
def parse_dict_line (line : List Char) : Option (String × String) :=
  if ";;;".toList.isPrefixOf line then none
  else if pyStrip line = [] then none
  else
    match splitTwoSpace (pyStrip line) with
    | none => none
    | some (w, a) =>
      let word := w.map Char.toLower
      if Char.ofNat 40 ∈ word then none
      else some (String.mk word, convert_arpabet_to_ipa a)

/-- The dataset entry list (source lines 63-89): one entry per
non-excluded line, in file order. -/
def load_cmu_dict (lines : List (List Char)) : List (String × String) :=
  lines.filterMap parse_dict_line

/-- Claim C6: a line is excluded from the parsed entry list exactly when
it starts with the comment marker, is empty after trimming, does not
split into two fields at the double-space separator (Python split with
maxsplit 1 yields one field exactly when no double space occurs), or its
lowercased word contains a parenthesis; every other line contributes the
(lowercased word, IPA) entry. -/
theorem dict_line_exclusions (line : List Char) :
    (parse_dict_line line = none ↔
        ";;;".toList.isPrefixOf line = true
      ∨ pyStrip line = []
      ∨ splitTwoSpace (pyStrip line) = none
      ∨ ∃ w a, splitTwoSpace (pyStrip line) = some (w, a)
          ∧ Char.ofNat 40 ∈ w.map Char.toLower)
  ∧ ∀ w a, splitTwoSpace (pyStrip line) = some (w, a) →
      ";;;".toList.isPrefixOf line = false →
      pyStrip line ≠ [] →
      Char.ofNat 40 ∉ w.map Char.toLower →
      parse_dict_line line
        = some (String.mk (w.map Char.toLower), convert_arpabet_to_ipa a) := by
  have step : ∀ w a, splitTwoSpace (pyStrip line) = some (w, a) →
      (";;;".toList.isPrefixOf line) = false → pyStrip line ≠ [] →
      parse_dict_line line
        = if Char.ofNat 40 ∈ w.map Char.toLower then none
          else some (String.mk (w.map Char.toLower), convert_arpabet_to_ipa a) := by
    intro w a h3 h1 h2
    unfold parse_dict_line
    rw [if_neg (by rw [h1]; exact Bool.false_ne_true), if_neg h2, h3]
  constructor
  · constructor
    · intro h
      by_cases h1 : (";;;".toList.isPrefixOf line) = true
      · exact Or.inl h1
      · have h1f : (";;;".toList.isPrefixOf line) = false := by
          cases hb : (";;;".toList.isPrefixOf line) with
          | true => exact absurd hb h1
          | false => rfl
        by_cases h2 : pyStrip line = []
        · exact Or.inr (Or.inl h2)
        · rcases h3 : splitTwoSpace (pyStrip line) with _ | ⟨w, a⟩
          · exact Or.inr (Or.inr (Or.inl rfl))
          · refine Or.inr (Or.inr (Or.inr ⟨w, a, rfl, ?_⟩))
            by_cases h4 : Char.ofNat 40 ∈ w.map Char.toLower
            · exact h4
            · rw [step w a h3 h1f h2, if_neg h4] at h
              exact absurd h (by simp)
    · intro h
      rcases h with h1 | h2 | h3 | ⟨w, a, h3, h4⟩
      · unfold parse_dict_line
        rw [if_pos h1]
      · unfold parse_dict_line
        by_cases h1 : (";;;".toList.isPrefixOf line) = true
        · rw [if_pos h1]
        · rw [if_neg h1, if_pos h2]
      · unfold parse_dict_line
        by_cases h1 : (";;;".toList.isPrefixOf line) = true
        · rw [if_pos h1]
        · by_cases h2 : pyStrip line = []
          · rw [if_neg h1, if_pos h2]
          · rw [if_neg h1, if_neg h2, h3]
      · unfold parse_dict_line
        by_cases h1 : (";;;".toList.isPrefixOf line) = true
        · rw [if_pos h1]
        · by_cases h2 : pyStrip line = []
          · rw [if_neg h1, if_pos h2]
          · rw [if_neg h1, if_neg h2, h3]
            exact if_pos h4
  · intro w a h3 h1 h2 h4
    rw [step w a h3 h1 h2, if_neg h4]

/-- Claim C6, witness: the exclusion theorem applied to a concrete
well-formed dictionary line, which contributes its entry. -/
theorem dict_line_exclusions_witness :
    parse_dict_line "WORLD  W ER1 L D".toList = some ("world", "wˈɝld") := by
  have h := (dict_line_exclusions "WORLD  W ER1 L D".toList).2
    "WORLD".toList "W ER1 L D".toList (by decide) (by decide) (by decide) (by decide)
  exact h.trans (by decide)

/-- Claim C8: the transcription of the dictionary line for HELLO
converts to exactly the expected IPA string, and the whole line parses
to the corresponding entry. -/
theorem hello_scenario :
    convert_arpabet_to_ipa "HH AH0 L OW1".toList = "həlˈoʊ"
  ∧ parse_dict_line "HELLO  HH AH0 L OW1".toList = some ("hello", "həlˈoʊ") := by
  constructor
  · decide
  · decide

/-- Tensorization of the word in CMUDictDataset getitem (source lines
100-102): a zero tensor of length max_word_len whose first entries are
the grapheme indices of the first max_word_len characters, looked up
with default 1 for characters absent from the table. -/
def word_tensor (word : List Char) (maxLen : Nat) : List Nat :=
  (word.take maxLen).map (fun c => dictGet chars (String.mk [c]) 1)
    ++ List.replicate (maxLen - (word.take maxLen).length) 0

/-- Tensorization of the IPA string in CMUDictDataset getitem (source
lines 105-110): the membership test followed by indexing, with 1 for
absent characters, is the same lookup-with-default. -/
def ipa_tensor (ipa : List Char) (maxLen : Nat) : List Nat :=
  (ipa.take maxLen).map (fun c => dictGet ipa_chars (String.mk [c]) 1)
    ++ List.replicate (maxLen - (ipa.take maxLen).length) 0

/-- Claim C5: for a word of length at most max_word_len, entry i of the
tensorized input is the vocabulary index of character i (1 when the
character is absent from the grapheme table) and every remaining entry
is 0; a longer word is silently truncated: its tensor equals the tensor
of its first max_word_len characters. -/
theorem tensorized_input (word : List Char) (maxLen : Nat) :
    (word.length ≤ maxLen →
      (∀ (i : Nat) (c : Char), word[i]? = some c →
        (word_tensor word maxLen)[i]? = some (dictGet chars (String.mk [c]) 1))
      ∧ (∀ (i : Nat), word.length ≤ i → i < maxLen →
        (word_tensor word maxLen)[i]? = some 0))
  ∧ word_tensor word maxLen = word_tensor (word.take maxLen) maxLen := by
  constructor
  · intro h
    have htake : word.take maxLen = word := List.take_of_length_le h
    constructor
    · intro i c hc
      have hi : i < word.length := by
        by_contra hlt
        push_neg at hlt
        rw [List.getElem?_eq_none hlt] at hc
        cases hc
      unfold word_tensor
      rw [htake, List.getElem?_append, if_pos (by simpa using hi),
        List.getElem?_map, hc]
      rfl
    · intro i hge hlt
      unfold word_tensor
      rw [htake, List.getElem?_append, if_neg (by simp; omega), List.length_map,
        List.getElem?_replicate, if_pos (by omega)]
  · unfold word_tensor
    rw [List.take_take, Nat.min_self]

/-- Claim C5, witness: the tensorization theorem applied to a concrete
two-character word with max length 4: the first entry is the index of
the letter h and the entries past the word are 0. -/
theorem tensorized_input_witness :
    (word_tensor ['h', 'i'] 4)[0]? = some 9
  ∧ (word_tensor ['h', 'i'] 4)[2]? = some 0 := by
  have h := (tensorized_input ['h', 'i'] 4).1 (by decide)
  exact ⟨(h.1 0 'h' rfl).trans (by decide), h.2 2 (by decide) (by decide)⟩

/-- Index of a last assignment is below the base index plus the table
length. -/
theorem lastAssign_lt (s : String) (l : List String) :
    ∀ (k j : Nat), lastAssign s l k = some j → j < k + l.length := by
  induction l with
  | nil => intro k j h; cases h
  | cons c rest ih =>
    intro k j h
    unfold lastAssign at h
    rcases hr : lastAssign s rest (k + 1) with _ | j2
    · rw [hr] at h
      by_cases hc : c = s
      · rw [if_pos hc] at h
        cases h
        simp
      · rw [if_neg hc] at h
        cases h
    · rw [hr] at h
      cases h
      have := ih (k + 1) j hr
      simp only [List.length_cons]
      omega

/-- Lookup with an in-range default stays in range. -/
theorem dictGet_lt (tbl : List String) (s : String) (d : Nat) (hd : d < tbl.length) :
    dictGet tbl s d < tbl.length := by
  unfold dictGet
  rcases h : lastAssign s tbl 0 with _ | j
  · simpa using hd
  · have := lastAssign_lt s tbl 0 j h
    simpa using this

/-- Claim C10: every entry of the tensorized input is a valid index into
the grapheme table and every entry of the tensorized target is a valid
index into the phoneme table: entries are either 0, the default 1, or a
dict value, all below the table length. -/
theorem tensor_index_range (word ipa : List Char) (maxW maxP : Nat) :
    (∀ x ∈ word_tensor word maxW, x < chars.length)
  ∧ (∀ x ∈ ipa_tensor ipa maxP, x < ipa_chars.length) := by
  constructor
  · intro x hx
    unfold word_tensor at hx
    rcases List.mem_append.1 hx with h | h
    · rcases List.mem_map.1 h with ⟨c, _, rfl⟩
      exact dictGet_lt chars (String.mk [c]) 1 (by decide)
    · rw [List.eq_of_mem_replicate h]
      decide
  · intro x hx
    unfold ipa_tensor at hx
    rcases List.mem_append.1 hx with h | h
    · rcases List.mem_map.1 h with ⟨c, _, rfl⟩
      exact dictGet_lt ipa_chars (String.mk [c]) 1 (by decide)
    · rw [List.eq_of_mem_replicate h]
      decide

/-- Claim C10, witness: the range theorem applied to the concrete entry
of the tensor of the one-letter word a. -/
theorem tensor_index_range_witness : (2 : Nat) < chars.length :=
  (tensor_index_range ['a'] [] 1 0).1 2 (by decide)

/-- Observable trace of one run of the train_model epoch loop (source
lines 205-241): the parameters after the loop, the number of optimizer
step calls, and the number of validation-loss passes performed. -/
structure TrainResult (α : Type) where
  finalParams : α
  updateCount : Nat
  valLossCount : Nat
deriving DecidableEq

/-- Epoch loop of train_model (source lines 205-241): each iteration
runs one optimizer step per training batch and then one validation
pass; zero iterations perform nothing. Parameters are abstracted to a
type with a per-batch update function. -/
def run_epochs {α : Type} (step : α → α) (nTrainBatches : Nat) : Nat → α → TrainResult α
  | 0, p => ⟨p, 0, 0⟩
  | e + 1, p =>
    let r := run_epochs step nTrainBatches e (step^[nTrainBatches] p)
    ⟨r.finalParams, nTrainBatches + r.updateCount, 1 + r.valLossCount⟩

/-- train_model (source lines 178-250): run the epoch loop, then save
and export the resulting parameters: the second component is what the
export step receives. -/
def train_model {α : Type} (step : α → α) (nTrainBatches epochs : Nat) (p0 : α) :
    TrainResult α × α :=
  let r := run_epochs step nTrainBatches epochs p0
  (r, r.finalParams)

/-- Each epoch performs one validation pass and one update per training
batch, confirming the loop structure of the embedding. -/
theorem run_epochs_counts {α : Type} (step : α → α) (n : Nat) (p0 : α) :
    ∀ e, (run_epochs step n e p0).valLossCount = e
       ∧ (run_epochs step n e p0).updateCount = n * e := by
  intro e
  induction e generalizing p0 with
  | zero => exact ⟨rfl, rfl⟩
  | succ k ih =>
    have h := ih (step^[n] p0)
    simp only [run_epochs, h.1, h.2]
    constructor <;> [omega; ring]

/-- Claim C2, counterexample: with epoch count 0 the loop body never
runs, so the validation loss is computed ZERO times, not once: the
validation pass sits inside the epoch loop (source lines 227-240). -/
theorem epochs_zero_counterexample :
    (run_epochs Nat.succ 3 0 7).updateCount = 0
  ∧ (run_epochs Nat.succ 3 0 7).finalParams = 7
  ∧ (run_epochs Nat.succ 3 0 7).valLossCount = 0
  ∧ (run_epochs Nat.succ 3 0 7).valLossCount ≠ 1 :=
  ⟨rfl, rfl, rfl, by decide⟩

/-- Claim C2, amended: training with epoch count 0 performs no
parameter update AND no validation pass at all, and the export step
still runs against the untouched initial parameters. -/
theorem epochs_zero_amended {α : Type} (step : α → α) (n : Nat) (p0 : α) :
    (train_model step n 0 p0).1.updateCount = 0
  ∧ (train_model step n 0 p0).1.valLossCount = 0
  ∧ (train_model step n 0 p0).2 = p0 :=
  ⟨rfl, rfl, rfl⟩

/-- Environment of one export_to_onnx call (source lines 252-292): the
outcomes of the fallible collaborator steps, the original model's
forward pass, and the zero-filled dummy input. An error value models a
raised exception in the corresponding step. -/
structure ExportEnv where
  graphConstruction : Except String (List Nat → List Int)
  structuralCheck : (List Nat → List Int) → Except String Unit
  runtimeExec : (List Nat → List Int) → List Nat → Except String (List Int)
  modelForward : List Nat → List Int
  dummyInput : List Nat

/-- Control flow of export_to_onnx (source lines 252-292): the
torch.onnx.export call at line 260 sits OUTSIDE the try block, so its
exception propagates; the try block covers only the structural check
and the runtime inference test, whose exceptions yield the value false;
the runtime output is discarded, never compared with modelForward. -/
def export_to_onnx (env : ExportEnv) : Except String Bool :=
  match env.graphConstruction with
  | .error e => .error e
  | .ok g =>
    match env.structuralCheck g with
    | .error _ => .ok false
    | .ok _ =>
      match env.runtimeExec g env.dummyInput with
      | .error _ => .ok false
      | .ok _ => .ok true

/-- Export run whose graph construction step raises, as when the
declared sequence length disagrees with the trained embedding size. -/
def mismatchedExportEnv : ExportEnv :=
  { graphConstruction := .error "sequence length disagrees with embedding size"
  , structuralCheck := fun _ => .ok ()
  , runtimeExec := fun g x => .ok (g x)
  , modelForward := fun _ => []
  , dummyInput := List.replicate 30 0 }

/-- Claim C3, counterexample: a graph-construction failure is NOT
reported as a boolean export failure: it propagates as an uncaught
exception, because the export call precedes the try block. -/
theorem export_crash_counterexample :
    export_to_onnx mismatchedExportEnv
      = .error "sequence length disagrees with embedding size"
  ∧ export_to_onnx mismatchedExportEnv ≠ .ok false
  ∧ export_to_onnx mismatchedExportEnv ≠ .ok true :=
  ⟨rfl, by simp [export_to_onnx, mismatchedExportEnv],
    by simp [export_to_onnx, mismatchedExportEnv]⟩

/-- Claim C3, amended: a failure at graph-construction time propagates
out of export_to_onnx as an uncaught exception (crashing the run unless
a caller catches it), while a failure in either post-write verification
step, the structural check or the inference smoke test, is caught and
reported as the boolean failure value false. -/
theorem export_failure_reporting (env : ExportEnv) (e : String) :
    (env.graphConstruction = .error e → export_to_onnx env = .error e)
  ∧ (∀ g, env.graphConstruction = .ok g → env.structuralCheck g = .error e →
      export_to_onnx env = .ok false)
  ∧ (∀ g, env.graphConstruction = .ok g → env.structuralCheck g = .ok () →
      env.runtimeExec g env.dummyInput = .error e →
      export_to_onnx env = .ok false) := by
  refine ⟨?_, ?_, ?_⟩
  · intro h
    simp [export_to_onnx, h]
  · intro g hg hs
    simp [export_to_onnx, hg, hs]
  · intro g hg hs hr
    simp [export_to_onnx, hg, hs, hr]

/-- Export run whose written graph fails the structural check. -/
def checkFailEnv : ExportEnv :=
  { graphConstruction := .ok fun _ => [0]
  , structuralCheck := fun _ => .error "invalid graph"
  , runtimeExec := fun g x => .ok (g x)
  , modelForward := fun _ => [0]
  , dummyInput := [] }

/-- Claim C3, witness: the reporting theorem applied to a concrete run
whose structural check fails, yielding the boolean failure value. -/
theorem export_failure_reporting_witness :
    export_to_onnx checkFailEnv = .ok false :=
  (export_failure_reporting checkFailEnv "invalid graph").2.1 (fun _ => [0]) rfl rfl

/-- Export run whose exported graph computes a different output than
the original model on the dummy input, yet passes every check. -/
def divergentGraphEnv : ExportEnv :=
  { graphConstruction := .ok fun _ => [42]
  , structuralCheck := fun _ => .ok ()
  , runtimeExec := fun g x => .ok (g x)
  , modelForward := fun _ => [7]
  , dummyInput := List.replicate 30 0 }

/-- Claim C4, counterexample: export verification succeeds although the
exported graph's output on the sample input differs numerically from
the original model's forward pass: the inference test only checks that
execution succeeds and discards the outputs (source lines 284-287). -/
theorem export_no_comparison_counterexample :
    export_to_onnx divergentGraphEnv = .ok true
  ∧ divergentGraphEnv.runtimeExec (fun _ => [42]) divergentGraphEnv.dummyInput
      = .ok [42]
  ∧ divergentGraphEnv.modelForward divergentGraphEnv.dummyInput = [7]
  ∧ ([42] : List Int) ≠ [7] :=
  ⟨rfl, rfl, rfl, by decide⟩

/-- Claim C4, amended: after writing the graph the Exporter verifies it
structurally and by an inference smoke test on the sample input;
success is exactly the conjunction of the two checks passing, and the
original model's forward pass plays no role in the verification. -/
theorem export_smoke_test_only (env : ExportEnv) (g : List Nat → List Int)
    (h : env.graphConstruction = .ok g) :
    (export_to_onnx env = .ok true ↔
      env.structuralCheck g = .ok ()
        ∧ ∃ out, env.runtimeExec g env.dummyInput = .ok out)
  ∧ ∀ f, export_to_onnx { env with modelForward := f } = export_to_onnx env := by
  constructor
  · rcases hs : env.structuralCheck g with e2 | u
    · simp [export_to_onnx, h, hs]
    · rcases hr : env.runtimeExec g env.dummyInput with e3 | out0
      · simp [export_to_onnx, h, hs, hr]
      · cases u
        simp [export_to_onnx, h, hs, hr]
  · intro f
    rfl

/-- Export run that passes both verification steps. -/
def smokeEnv : ExportEnv :=
  { graphConstruction := .ok fun _ => [5]
  , structuralCheck := fun _ => .ok ()
  , runtimeExec := fun g x => .ok (g x)
  , modelForward := fun _ => [5]
  , dummyInput := [1] }

/-- Claim C4, witness: the smoke-test theorem applied to a concrete
passing run. -/
theorem export_smoke_test_only_witness :
    export_to_onnx smokeEnv = .ok true :=
  ((export_smoke_test_only smokeEnv (fun _ => [5]) rfl).1).2 ⟨rfl, ⟨[5], rfl⟩⟩
